import Mathlib

/-!
Verification development for the `pyc3toc` ETA estimator
(`src/c3toc/api.py`, class `C3TOCAPI`).

The embedding is a shallow one:

* timestamps are modelled as rational numbers of seconds since an epoch
  (the Python code uses `datetime` values; only differences in seconds
  matter to the algorithm);
* trackmarker positions and all configuration scalars are rationals;
* the per-train mutable dictionary entry becomes the record `TrainState`;
* the body of the `for` loop of `get_train_info` becomes the pure state
  transformer `stepTrain`; the loop over the feed snapshot becomes the
  recursive `get_train_info`, whose `Except` result models the fact that
  `dateutil.parser.isoparse` raises (aborting the loop) on an
  unparseable timestamp;
* the two `datetime.datetime.utcnow()` calls (line 83 of `api.py` for the
  ETA, line 58 inside `_calc_avg_speed` for the window filter) are the
  two clock parameters `utcnow` and `fnow` of `stepTrain`.
-/

set_option maxRecDepth 4000

namespace C3toc

/-- One entry of a train's position history: line 104 of `api.py` appends
the pair `(timestamp, data['trackmarker'])`. -/
structure Sample where
  timestamp : ℚ
  trackmarker : ℚ
deriving DecidableEq, Inhabited

/-- The per-train payload of one feed snapshot, after the timestamp has
been parsed (line 90 of `api.py`). -/
structure TrainData where
  timestamp : ℚ
  trackmarker : ℚ
deriving DecidableEq, Inhabited

/-- The per-train payload of one feed snapshot as delivered by the feed:
`timestamp` is the result of parsing the ISO string, `none` meaning that
`dateutil.parser.isoparse` would raise on it. -/
structure RawTrainData where
  timestamp : Option ℚ
  trackmarker : ℚ
deriving DecidableEq, Inhabited

/-- The caller-supplied configuration of `get_train_info`
(lines 76-81 of `api.py`). -/
structure Config where
  display_trackmarker : ℚ
  eta_lookback : ℚ
  eta_max_jump : ℚ
  trackmarker_delta_arrived : ℚ
  track_length : ℚ
deriving DecidableEq, Inhabited

/-- One value of the `self.train_info` dictionary (lines 93-100 of
`api.py`).  `avg_speed` is an `Option` because line 110 stores the first
component of `_calc_avg_speed`'s result, which is `None` when fewer than
two samples are in the window. -/
structure TrainState where
  history : List Sample
  avg_speed : Option ℚ
  raw_eta : Option ℚ
  eta : Option ℚ
  arrived : Bool
deriving DecidableEq, Inhabited

/-- The initial state of a newly sighted train (lines 94-100 of
`api.py`): empty history, `avg_speed = 0.0`, no ETAs, not arrived. -/
def initState : TrainState :=
  { history := [], avg_speed := some 0, raw_eta := none, eta := none, arrived := false }

/-- The window filter of `_calc_avg_speed` (lines 57-65 of `api.py`): keep
a sample iff its age `now - timestamp` is neither greater than
`minutes * 60` seconds nor negative (future timestamps are dropped). -/
def filterHistory (now minutes : ℚ) (history : List Sample) : List Sample :=
  history.filter fun s =>
    decide (now - s.timestamp ≤ minutes * 60 ∧ 0 ≤ now - s.timestamp)

/-- `_calc_avg_speed` (lines 48-74 of `api.py`).  The Python function
returns the triple `(None, None, None)` when fewer than two samples
survive the window filter, and otherwise `(avg_speed, seconds_delta,
new_history)`; the two shapes are modelled as `none` and
`some (avg_speed, seconds_delta, new_history)`. -/
def calc_avg_speed (now minutes track_length : ℚ) (history : List Sample) :
    Option (ℚ × ℚ × List Sample) :=
  let new_history := filterHistory now minutes history
  if new_history.length < 2 then
    none
  else
    let first := new_history.head?.getD default
    let lastS := new_history.getLast?.getD default
    let d0 := lastS.trackmarker - first.trackmarker
    let trackmarker_delta := if d0 < 0 then d0 + track_length else d0
    let seconds_delta := lastS.timestamp - first.timestamp
    some (trackmarker_delta / seconds_delta, seconds_delta, new_history)

/-- Sample ingestion (lines 102-104 of `api.py`): append the reported
`(timestamp, trackmarker)` pair to the history iff no stored sample
already carries this exact timestamp. -/
def ingest (history : List Sample) (data : TrainData) : List Sample :=
  if data.timestamp ∈ history.map Sample.timestamp then history
  else history ++ [⟨data.timestamp, data.trackmarker⟩]

/-- The circular forward distance from position `pos` to the display
(lines 117-119 of `api.py`): `display_trackmarker - pos`, plus
`track_length` when that is negative. -/
def gapTo (display_trackmarker track_length pos : ℚ) : ℚ :=
  let d := display_trackmarker - pos
  if d < 0 then d + track_length else d

/-- The arrival test of line 123 of `api.py`: the train counts as arrived
when its gap to the display is below `trackmarker_delta_arrived`. -/
def arrivedNow (cfg : Config) (data : TrainData) : Bool :=
  decide (gapTo cfg.display_trackmarker cfg.track_length data.trackmarker
    < cfg.trackmarker_delta_arrived)

/-- The local `allow_eta_jump` flag (lines 122-130 of `api.py`): set
exactly when the train does not pass the arrival test now but was marked
arrived by the previous evaluation. -/
def allowEtaJump (cfg : Config) (st0 : TrainState) (data : TrainData) : Bool :=
  !arrivedNow cfg data && st0.arrived

/-- The body of the per-train loop of `get_train_info`
(lines 87-163 of `api.py`) as a pure state transformer.  `utcnow` is the
clock read at line 83, `fnow` the clock read inside `_calc_avg_speed`
(line 58); `st0` is the train's dictionary entry before the iteration. -/
def stepTrain (cfg : Config) (utcnow fnow : ℚ) (st0 : TrainState) (data : TrainData) :
    TrainState :=
  let history1 := ingest st0.history data
  let calcRes := calc_avg_speed fnow cfg.eta_lookback cfg.track_length history1
  let avg_speed : Option ℚ := calcRes.map fun r => r.1
  let seconds_delta : Option ℚ := calcRes.map fun r => r.2.1
  let history2 : List Sample :=
    match calcRes with
    | some r => r.2.2
    | none => history1
  if arrivedNow cfg data then
    { history := history2, avg_speed := avg_speed,
      raw_eta := some utcnow, eta := some utcnow, arrived := true }
  else
    let trackmarker_delta := gapTo cfg.display_trackmarker cfg.track_length data.trackmarker
    let insufficient : Bool :=
      decide (avg_speed = some (0 : ℚ)) ||
        match seconds_delta with
        | none => true
        | some s => decide (s < 2 * 60)
    let raw_eta : Option ℚ :=
      if insufficient then none
      else
        match history2.getLast?, avg_speed with
        | some lastS, some v => some (lastS.timestamp + trackmarker_delta / v)
        | _, _ => none
    let eta : Option ℚ :=
      match raw_eta with
      | none => none
      | some re =>
        if allowEtaJump cfg st0 data then some re
        else
          let base := st0.eta.getD re
          let delta := re - base
          if cfg.eta_max_jump < delta then some (base + cfg.eta_max_jump)
          else if delta < -cfg.eta_max_jump then some (base - cfg.eta_max_jump)
          else some re
    { history := history2, avg_speed := avg_speed,
      raw_eta := raw_eta, eta := eta, arrived := false }

/-- The `self.train_info` dictionary, as an association list keyed by
train name. -/
abbrev TrainInfoMap := List (String × TrainState)

/-- Dictionary assignment `self.train_info[name] = v`: replace the
binding if the key is present, append it otherwise. -/
def setState : TrainInfoMap → String → TrainState → TrainInfoMap
  | [], k, v => [(k, v)]
  | (k', v') :: rest, k, v =>
    if k' = k then (k, v) :: rest else (k', v') :: setState rest k v

/-- The per-snapshot loop of `get_train_info` (lines 87-164 of `api.py`).
A train whose timestamp does not parse makes line 90 raise, which aborts
the whole call; this is modelled by an `Except.error` carrying the name
of the offending train together with the dictionary as mutated so far
(earlier trains of the snapshot keep their updates, later ones are never
processed). -/
def get_train_info (cfg : Config) (utcnow : ℚ) :
    List (String × RawTrainData) → TrainInfoMap →
    Except (String × TrainInfoMap) TrainInfoMap
  | [], info => .ok info
  | (name, data) :: rest, info =>
    match data.timestamp with
    | none => .error (name, info)
    | some ts =>
      let st0 := (List.lookup name info).getD initState
      get_train_info cfg utcnow rest
        (setState info name (stepTrain cfg utcnow utcnow st0 ⟨ts, data.trackmarker⟩))

/-- The spec's formula for the average speed (section 8 of the design
document, first testable property): the wraparound-normalised trackmarker
delta between the first and last in-window sample, divided by the elapsed
seconds between their timestamps.  Written from the spec's words, to be
compared with `calc_avg_speed`. -/
def spec_avg_speed (track_length : ℚ) (first lastS : Sample) : ℚ :=
  (if lastS.trackmarker - first.trackmarker < 0 then
    lastS.trackmarker - first.trackmarker + track_length
  else
    lastS.trackmarker - first.trackmarker) / (lastS.timestamp - first.timestamp)

/-- The part of `stepTrain` that the non-arrived branch stores into
`raw_eta` (lines 137-142 of `api.py`), named so that proofs can speak
about it. -/
def rawEtaOf (cfg : Config) (fnow : ℚ) (st0 : TrainState) (data : TrainData) : Option ℚ :=
  let calcRes := calc_avg_speed fnow cfg.eta_lookback cfg.track_length (ingest st0.history data)
  let avg_speed : Option ℚ := calcRes.map fun r => r.1
  let seconds_delta : Option ℚ := calcRes.map fun r => r.2.1
  let history2 : List Sample :=
    match calcRes with
    | some r => r.2.2
    | none => ingest st0.history data
  let insufficient : Bool :=
    decide (avg_speed = some (0 : ℚ)) ||
      match seconds_delta with
      | none => true
      | some s => decide (s < 2 * 60)
  if insufficient then none
  else
    match history2.getLast?, avg_speed with
    | some lastS, some v =>
      some (lastS.timestamp + gapTo cfg.display_trackmarker cfg.track_length data.trackmarker / v)
    | _, _ => none

/-- The history stored back into the train's state by one evaluation
(lines 102-114 of `api.py`): the window-filtered list when at least two
samples survive, the raw ingested history otherwise. -/
def historyAfter (cfg : Config) (fnow : ℚ) (st0 : TrainState) (data : TrainData) : List Sample :=
  match calc_avg_speed fnow cfg.eta_lookback cfg.track_length (ingest st0.history data) with
  | some r => r.2.2
  | none => ingest st0.history data

/-- The average speed stored back by one evaluation (line 110 of
`api.py`). -/
def avgSpeedAfter (cfg : Config) (fnow : ℚ) (st0 : TrainState) (data : TrainData) : Option ℚ :=
  (calc_avg_speed fnow cfg.eta_lookback cfg.track_length (ingest st0.history data)).map
    fun r => r.1

/-- No two history entries share a timestamp. -/
def dedupedByTime (h : List Sample) : Prop :=
  h.Pairwise fun a b => a.timestamp ≠ b.timestamp

/-- History timestamps are non-decreasing along the list. -/
def sortedByTime (h : List Sample) : Prop :=
  h.Pairwise fun a b => a.timestamp ≤ b.timestamp

/-! ## Characterisation lemmas for `stepTrain` -/

/-- One evaluation stores `historyAfter` as the new history, whether or
not the train is arrived. -/
lemma stepTrain_history (cfg : Config) (u f : ℚ) (st0 : TrainState) (data : TrainData) :
    (stepTrain cfg u f st0 data).history = historyAfter cfg f st0 data := by
  unfold stepTrain historyAfter
  split <;> rfl

/-- One evaluation stores `avgSpeedAfter` as the new average speed,
whether or not the train is arrived. -/
lemma stepTrain_avg_speed (cfg : Config) (u f : ℚ) (st0 : TrainState) (data : TrainData) :
    (stepTrain cfg u f st0 data).avg_speed = avgSpeedAfter cfg f st0 data := by
  unfold stepTrain avgSpeedAfter
  split <;> rfl

/-- The stored `arrived` flag is exactly the arrival test of line 123. -/
lemma stepTrain_arrived (cfg : Config) (u f : ℚ) (st0 : TrainState) (data : TrainData) :
    (stepTrain cfg u f st0 data).arrived = arrivedNow cfg data := by
  unfold stepTrain
  split <;> simp_all

/-- In the non-arrived branch, the stored `raw_eta` is `rawEtaOf`. -/
lemma stepTrain_raw_eta (cfg : Config) (u f : ℚ) (st0 : TrainState) (data : TrainData)
    (h : arrivedNow cfg data = false) :
    (stepTrain cfg u f st0 data).raw_eta = rawEtaOf cfg f st0 data := by
  unfold stepTrain rawEtaOf
  rw [if_neg (by simp [h])]

/-- In the non-arrived branch, the stored `eta` is the clamped version of
`rawEtaOf` (lines 144-163 of `api.py`). -/
lemma stepTrain_eta (cfg : Config) (u f : ℚ) (st0 : TrainState) (data : TrainData)
    (h : arrivedNow cfg data = false) :
    (stepTrain cfg u f st0 data).eta =
      match rawEtaOf cfg f st0 data with
      | none => none
      | some re =>
        if allowEtaJump cfg st0 data then some re
        else
          let base := st0.eta.getD re
          if cfg.eta_max_jump < re - base then some (base + cfg.eta_max_jump)
          else if re - base < -cfg.eta_max_jump then some (base - cfg.eta_max_jump)
          else some re := by
  unfold stepTrain rawEtaOf
  rw [if_neg (by simp [h])]

/-- When at least two samples survive the window filter,
`_calc_avg_speed` returns the spec's average-speed formula, the elapsed
seconds between the first and last filtered sample, and the filtered
history. -/
lemma calc_avg_speed_of_two_le (now minutes L : ℚ) (history : List Sample)
    (h2 : 2 ≤ (filterHistory now minutes history).length) :
    calc_avg_speed now minutes L history =
      some (spec_avg_speed L ((filterHistory now minutes history).head?.getD default)
          ((filterHistory now minutes history).getLast?.getD default),
        ((filterHistory now minutes history).getLast?.getD default).timestamp
          - ((filterHistory now minutes history).head?.getD default).timestamp,
        filterHistory now minutes history) := by
  unfold calc_avg_speed spec_avg_speed
  rw [if_neg (by omega)]

/-! ## Claims -/

/-- Counterexample to C1 as stated: an arrival transition is not a
jump-allowance (the `allow_eta_jump` flag stays false), yet it moves a
defined reported `eta` from 500 to 0 while `eta_max_jump` is 10. -/
theorem c1_counterexample :
    allowEtaJump ⟨0, 5, 10, 20, 1000⟩ ⟨[], some 0, none, some 500, false⟩ ⟨0, 995⟩
      = false ∧
    (⟨[], some 0, none, some 500, false⟩ : TrainState).eta = some 500 ∧
    (stepTrain ⟨0, 5, 10, 20, 1000⟩ 0 0 ⟨[], some 0, none, some 500, false⟩
      ⟨0, 995⟩).eta = some 0 ∧
    ¬ |(0 : ℚ) - 500| ≤ 10 := by
  refine ⟨by with_unfolding_all decide, rfl, by with_unfolding_all decide, by norm_num⟩

/-- C1 (amended): between two consecutive evaluations in which no
jump-allowance was granted, in which the train is moreover not detected
as arrived on the new evaluation, and in which both the previous and the
new reported `eta` are defined, the reported `eta` changes by at most
`eta_max_jump` seconds (under the caller contract `0 ≤ eta_max_jump`). -/
theorem c1_eta_jump_clamped (cfg : Config) (u f : ℚ) (st0 : TrainState) (data : TrainData)
    (e0 e1 : ℚ)
    (hjump : allowEtaJump cfg st0 data = false)
    (harr : arrivedNow cfg data = false)
    (hmj : 0 ≤ cfg.eta_max_jump)
    (h0 : st0.eta = some e0)
    (h1 : (stepTrain cfg u f st0 data).eta = some e1) :
    |e1 - e0| ≤ cfg.eta_max_jump := by
  rw [stepTrain_eta _ _ _ _ _ harr] at h1
  cases hre : rawEtaOf cfg f st0 data with
  | none =>
    rw [hre] at h1
    cases h1
  | some re =>
    rw [hre] at h1
    simp only [hjump, Bool.false_eq_true, if_false, h0, Option.getD_some] at h1
    rw [abs_le]
    split at h1
    · cases h1
      constructor <;> linarith
    · split at h1
      · cases h1
        constructor <;> linarith
      · cases h1
        next hgt hlt =>
          rw [not_lt] at hgt hlt
          constructor <;> linarith

/-- Witness for C1 (amended): previous `eta = 1000`, new raw ETA 700 with
`eta_max_jump = 50`, so the reported `eta` is clamped to 950, a move of
exactly 50 seconds. -/
theorem c1_witness :
    allowEtaJump ⟨800, 5, 50, 10, 1000⟩ ⟨[⟨0, 100⟩, ⟨200, 300⟩], some 0, none, some 1000, false⟩
      ⟨200, 300⟩ = false ∧
    arrivedNow ⟨800, 5, 50, 10, 1000⟩ ⟨200, 300⟩ = false ∧
    (0 : ℚ) ≤ 50 ∧
    (⟨[⟨0, 100⟩, ⟨200, 300⟩], some 0, none, some 1000, false⟩ : TrainState).eta = some 1000 ∧
    (stepTrain ⟨800, 5, 50, 10, 1000⟩ 200 200
      ⟨[⟨0, 100⟩, ⟨200, 300⟩], some 0, none, some 1000, false⟩ ⟨200, 300⟩).eta = some 950 ∧
    |(950 : ℚ) - 1000| ≤ 50 :=
  ⟨by with_unfolding_all decide, by with_unfolding_all decide, by norm_num, rfl,
    by with_unfolding_all decide,
    c1_eta_jump_clamped ⟨800, 5, 50, 10, 1000⟩ 200 200
      ⟨[⟨0, 100⟩, ⟨200, 300⟩], some 0, none, some 1000, false⟩ ⟨200, 300⟩ 1000 950
      (by with_unfolding_all decide) (by with_unfolding_all decide) (by norm_num) rfl
      (by with_unfolding_all decide)⟩

/-- Counterexample to C2 as stated: when fewer than two samples survive
the window filter, line 113 of `api.py` keeps the raw appended history
instead of the filtered set, so a sample whose age (100 s) is beyond the
1-minute lookback window stays stored. -/
theorem c2_counterexample :
    (stepTrain ⟨0, 1, 10, 20, 1000⟩ 100 100 ⟨[⟨0, 500⟩], some 0, none, none, false⟩
      ⟨100, 700⟩).history = [⟨0, 500⟩, ⟨100, 700⟩] ∧
    filterHistory 100 1 [⟨0, 500⟩, ⟨100, 700⟩] = [⟨100, 700⟩] ∧
    ¬ ((100 : ℚ) - 0 ≤ 1 * 60) := by
  refine ⟨by with_unfolding_all decide, by with_unfolding_all decide, by norm_num⟩

/-- C2 (amended): when at least two samples survive the window filter,
the evaluation replaces the stored history by the filtered set, so every
stored sample is at most `eta_lookback` minutes old at filter time and
none is in the future.  (When fewer than two survive, the code keeps the
raw ingested history instead — see the counterexample.) -/
theorem c2_history_filtered (cfg : Config) (u f : ℚ) (st0 : TrainState) (data : TrainData)
    (h2 : 2 ≤ (filterHistory f cfg.eta_lookback (ingest st0.history data)).length) :
    (stepTrain cfg u f st0 data).history
      = filterHistory f cfg.eta_lookback (ingest st0.history data) ∧
    ∀ s ∈ (stepTrain cfg u f st0 data).history,
      0 ≤ f - s.timestamp ∧ f - s.timestamp ≤ cfg.eta_lookback * 60 := by
  have hh : (stepTrain cfg u f st0 data).history
      = filterHistory f cfg.eta_lookback (ingest st0.history data) := by
    rw [stepTrain_history]
    unfold historyAfter
    rw [calc_avg_speed_of_two_le _ _ _ _ h2]
  refine ⟨hh, ?_⟩
  intro s hs
  rw [hh] at hs
  unfold filterHistory at hs
  rw [List.mem_filter] at hs
  have hw := of_decide_eq_true hs.2
  exact ⟨hw.2, hw.1⟩

/-- Witness for C2 (amended): two in-window samples; the stored history
is the filtered set and its oldest sample, aged 200 s, is inside the
5-minute window and not in the future. -/
theorem c2_witness :
    2 ≤ (filterHistory 200 5 (ingest [⟨0, 100⟩] ⟨200, 300⟩)).length ∧
    (stepTrain ⟨800, 5, 50, 10, 1000⟩ 200 200 ⟨[⟨0, 100⟩], some 0, none, none, false⟩
      ⟨200, 300⟩).history = filterHistory 200 5 (ingest [⟨0, 100⟩] ⟨200, 300⟩) ∧
    (0 : ℚ) ≤ 200 - (⟨0, 100⟩ : Sample).timestamp ∧
    (200 : ℚ) - (⟨0, 100⟩ : Sample).timestamp ≤ 5 * 60 := by
  have h := c2_history_filtered ⟨800, 5, 50, 10, 1000⟩ 200 200
    ⟨[⟨0, 100⟩], some 0, none, none, false⟩ ⟨200, 300⟩ (by with_unfolding_all decide)
  have hm := h.2 ⟨0, 100⟩ (by rw [h.1]; with_unfolding_all decide)
  exact ⟨by with_unfolding_all decide, h.1, hm.1, hm.2⟩

/-- C3: with at least two in-window samples, `_calc_avg_speed` computes
exactly the spec's formula — the last-minus-first position delta, plus
`track_length` if negative, divided by the elapsed seconds — and the
result is nonnegative for a correctly-moving train (positions in
`[0, track_length)`, last sample strictly later than the first). -/
theorem c3_avg_speed_matches_spec (now minutes L : ℚ) (history : List Sample)
    (f l : Sample)
    (h2 : 2 ≤ (filterHistory now minutes history).length)
    (hf : (filterHistory now minutes history).head? = some f)
    (hl : (filterHistory now minutes history).getLast? = some l)
    (hf0 : 0 ≤ f.trackmarker) (hfL : f.trackmarker < L)
    (hl0 : 0 ≤ l.trackmarker) (hlL : l.trackmarker < L)
    (ht : f.timestamp < l.timestamp) :
    calc_avg_speed now minutes L history
      = some (spec_avg_speed L f l, l.timestamp - f.timestamp,
          filterHistory now minutes history) ∧
    0 ≤ spec_avg_speed L f l := by
  constructor
  · rw [calc_avg_speed_of_two_le now minutes L history h2, hf, hl]
    rfl
  · unfold spec_avg_speed
    have hts : (0 : ℚ) < l.timestamp - f.timestamp := by linarith
    split
    · exact div_nonneg (by linarith) (le_of_lt hts)
    · next hd => exact div_nonneg (by linarith [not_lt.mp hd]) (le_of_lt hts)

/-- Witness for C3: samples at positions 100 then 300, 200 seconds
apart, on a 1000-unit track: the average speed is the spec's
`(300 - 100) / 200 = 1` and is nonnegative. -/
theorem c3_witness :
    2 ≤ (filterHistory 200 5 [⟨0, 100⟩, ⟨200, 300⟩]).length ∧
    (filterHistory 200 5 [⟨0, 100⟩, ⟨200, 300⟩]).head? = some ⟨0, 100⟩ ∧
    (filterHistory 200 5 [⟨0, 100⟩, ⟨200, 300⟩]).getLast? = some ⟨200, 300⟩ ∧
    (calc_avg_speed 200 5 1000 [⟨0, 100⟩, ⟨200, 300⟩]
      = some (spec_avg_speed 1000 ⟨0, 100⟩ ⟨200, 300⟩, (200 : ℚ) - 0,
          filterHistory 200 5 [⟨0, 100⟩, ⟨200, 300⟩]) ∧
    0 ≤ spec_avg_speed 1000 ⟨0, 100⟩ ⟨200, 300⟩) :=
  ⟨by with_unfolding_all decide, by with_unfolding_all decide, by with_unfolding_all decide,
    c3_avg_speed_matches_spec 200 5 1000 [⟨0, 100⟩, ⟨200, 300⟩] ⟨0, 100⟩ ⟨200, 300⟩
      (by with_unfolding_all decide) (by with_unfolding_all decide)
      (by with_unfolding_all decide) (by norm_num) (by norm_num) (by norm_num)
      (by norm_num) (by norm_num)⟩

/-- C4: for every train whose circular forward gap to the display
position is below `arrival_zone_size` on an evaluation, the train is
marked `arrived = true` and both its reported `eta` and its `raw_eta` are
set to the evaluation instant `utcnow`. -/
theorem c4_arrival_sets_eta_now (cfg : Config) (u f : ℚ) (st0 : TrainState) (data : TrainData)
    (h : gapTo cfg.display_trackmarker cfg.track_length data.trackmarker
      < cfg.trackmarker_delta_arrived) :
    (stepTrain cfg u f st0 data).arrived = true ∧
    (stepTrain cfg u f st0 data).eta = some u ∧
    (stepTrain cfg u f st0 data).raw_eta = some u := by
  have harr : arrivedNow cfg data = true := decide_eq_true h
  unfold stepTrain
  rw [if_pos harr]
  exact ⟨rfl, rfl, rfl⟩

/-- Witness for C4, the spec's arrival scenario: track length 1000,
display at 0, train at 995, arrival zone 20, so the gap is 5 and the
train is arrived with `eta = raw_eta = now = 60`. -/
theorem c4_witness :
    gapTo (0 : ℚ) 1000 995 < 20 ∧
    ((stepTrain ⟨0, 5, 10, 20, 1000⟩ 60 60 ⟨[⟨0, 990⟩], some 0, none, none, false⟩
        ⟨60, 995⟩).arrived = true ∧
      (stepTrain ⟨0, 5, 10, 20, 1000⟩ 60 60 ⟨[⟨0, 990⟩], some 0, none, none, false⟩
        ⟨60, 995⟩).eta = some 60 ∧
      (stepTrain ⟨0, 5, 10, 20, 1000⟩ 60 60 ⟨[⟨0, 990⟩], some 0, none, none, false⟩
        ⟨60, 995⟩).raw_eta = some 60) :=
  ⟨by with_unfolding_all decide,
    c4_arrival_sets_eta_now ⟨0, 5, 10, 20, 1000⟩ 60 60
      ⟨[⟨0, 990⟩], some 0, none, none, false⟩ ⟨60, 995⟩ (by with_unfolding_all decide)⟩

/-- C5: a train that was `arrived` on the previous evaluation and whose
gap is now at least `arrival_zone_size` gets `allow_eta_jump = true` for
this one evaluation, is marked not arrived, and reports `eta = raw_eta`
with no clamping; and from the resulting state no later evaluation can
see the allowance again (it is recomputed from `arrived`, now false). -/
theorem c5_departure_one_shot_jump (cfg : Config) (u f : ℚ) (st0 : TrainState)
    (data : TrainData)
    (hprev : st0.arrived = true)
    (hgap : cfg.trackmarker_delta_arrived ≤
      gapTo cfg.display_trackmarker cfg.track_length data.trackmarker) :
    allowEtaJump cfg st0 data = true ∧
    (stepTrain cfg u f st0 data).arrived = false ∧
    (stepTrain cfg u f st0 data).eta = (stepTrain cfg u f st0 data).raw_eta ∧
    ∀ cfg2 : Config, ∀ data2 : TrainData,
      allowEtaJump cfg2 (stepTrain cfg u f st0 data) data2 = false := by
  have harr : arrivedNow cfg data = false := decide_eq_false (not_lt.mpr hgap)
  have hjump : allowEtaJump cfg st0 data = true := by
    unfold allowEtaJump
    rw [harr, hprev]
    rfl
  refine ⟨hjump, ?_, ?_, ?_⟩
  · rw [stepTrain_arrived, harr]
  · rw [stepTrain_eta _ _ _ _ _ harr, stepTrain_raw_eta _ _ _ _ _ harr]
    cases hre : rawEtaOf cfg f st0 data with
    | none => rfl
    | some re => simp [hjump]
  · intro cfg2 data2
    unfold allowEtaJump
    rw [stepTrain_arrived, harr]
    simp

/-- Witness for C5: a train previously arrived, now at gap 500 with
arrival zone 20; the evaluation grants the one-shot jump, reports
`eta = raw_eta`, and leaves a state from which no allowance follows. -/
theorem c5_witness :
    (⟨[⟨0, 400⟩], some 0, some 0, some 0, true⟩ : TrainState).arrived = true ∧
    (20 : ℚ) ≤ gapTo 0 1000 500 ∧
    allowEtaJump ⟨0, 5, 10, 20, 1000⟩ ⟨[⟨0, 400⟩], some 0, some 0, some 0, true⟩
      ⟨60, 500⟩ = true ∧
    (stepTrain ⟨0, 5, 10, 20, 1000⟩ 60 60 ⟨[⟨0, 400⟩], some 0, some 0, some 0, true⟩
      ⟨60, 500⟩).arrived = false ∧
    (stepTrain ⟨0, 5, 10, 20, 1000⟩ 60 60 ⟨[⟨0, 400⟩], some 0, some 0, some 0, true⟩
        ⟨60, 500⟩).eta =
      (stepTrain ⟨0, 5, 10, 20, 1000⟩ 60 60 ⟨[⟨0, 400⟩], some 0, some 0, some 0, true⟩
        ⟨60, 500⟩).raw_eta ∧
    allowEtaJump ⟨0, 5, 10, 20, 1000⟩
      (stepTrain ⟨0, 5, 10, 20, 1000⟩ 60 60 ⟨[⟨0, 400⟩], some 0, some 0, some 0, true⟩
        ⟨60, 500⟩) ⟨120, 600⟩ = false := by
  have h := c5_departure_one_shot_jump ⟨0, 5, 10, 20, 1000⟩ 60 60
    ⟨[⟨0, 400⟩], some 0, some 0, some 0, true⟩ ⟨60, 500⟩ (by with_unfolding_all decide) (by with_unfolding_all decide)
  exact ⟨by with_unfolding_all decide, by with_unfolding_all decide, h.1, h.2.1, h.2.2.1, h.2.2.2 ⟨0, 5, 10, 20, 1000⟩ ⟨120, 600⟩⟩

/-- C6: for every non-arrived train, if the average speed is zero or
undefined, or the averaging span is under 2 minutes, the evaluation
stores `raw_eta = none` and hence also `eta = none`, even when a nonzero
speed was computable. -/
theorem c6_insufficient_data_no_eta (cfg : Config) (u f : ℚ) (st0 : TrainState)
    (data : TrainData)
    (hgap : cfg.trackmarker_delta_arrived ≤
      gapTo cfg.display_trackmarker cfg.track_length data.trackmarker)
    (hins : calc_avg_speed f cfg.eta_lookback cfg.track_length (ingest st0.history data)
        = none ∨
      ∃ v s h2, calc_avg_speed f cfg.eta_lookback cfg.track_length (ingest st0.history data)
        = some (v, s, h2) ∧ (v = 0 ∨ s < 2 * 60)) :
    (stepTrain cfg u f st0 data).raw_eta = none ∧
    (stepTrain cfg u f st0 data).eta = none := by
  have harr : arrivedNow cfg data = false := decide_eq_false (not_lt.mpr hgap)
  have hre : rawEtaOf cfg f st0 data = none := by
    unfold rawEtaOf
    rcases hins with hnone | ⟨v, s, h2, hsome, hcond⟩
    · rw [hnone]
      rfl
    · rw [hsome]
      rcases hcond with hv | hs
      · subst hv
        simp
      · simp [hs]
  constructor
  · rw [stepTrain_raw_eta _ _ _ _ _ harr, hre]
  · rw [stepTrain_eta _ _ _ _ _ harr, hre]

/-- When fewer than two samples survive the window filter,
`_calc_avg_speed` returns the `None` triple. -/
lemma calc_avg_speed_of_lt_two (now minutes L : ℚ) (history : List Sample)
    (h2 : (filterHistory now minutes history).length < 2) :
    calc_avg_speed now minutes L history = none := by
  unfold calc_avg_speed
  rw [if_pos h2]

/-- When `_calc_avg_speed` succeeds, the history component of its result
is exactly the window-filtered input history. -/
lemma calc_avg_speed_some_history (now minutes L : ℚ) (history : List Sample)
    (r : ℚ × ℚ × List Sample) (h : calc_avg_speed now minutes L history = some r) :
    r.2.2 = filterHistory now minutes history := by
  by_cases hlen : (filterHistory now minutes history).length < 2
  · rw [calc_avg_speed_of_lt_two now minutes L history hlen] at h
    cases h
  · rw [calc_avg_speed_of_two_le now minutes L history (by omega)] at h
    have hr := Option.some.inj h
    rw [← hr]

/-- Counterexample to C7 as stated: with `track_length = 0` the call
completes without error (`.ok`) and silently stores the negative,
nonsensical average speed `-40/3` for train A. -/
theorem c7_counterexample :
    ((get_train_info ⟨0, 5, 10, 10, 0⟩ 60 [("A", ⟨some 60, 100⟩)]
        [("A", ⟨[⟨0, 900⟩], some 0, none, none, false⟩)]).toOption.bind
      fun m => List.lookup "A" m).map TrainState.avg_speed
      = some (some (-40/3 : ℚ)) ∧
    (-40/3 : ℚ) < 0 := by
  refine ⟨by with_unfolding_all decide, by norm_num⟩

/-- C7 (amended): a zero track length raises no error: whenever every
timestamp of the snapshot parses, `get_train_info` with
`track_length = 0` completes normally; the counterexample shows it can
then store a negative average speed. -/
theorem c7_zero_track_length_no_error (cfg : Config) (u : ℚ)
    (trains : List (String × RawTrainData)) (info : TrainInfoMap)
    (hz : cfg.track_length = 0)
    (hp : ∀ p ∈ trains, (p.2).timestamp.isSome = true) :
    (get_train_info cfg u trains info).isOk = true := by
  induction trains generalizing info with
  | nil => rfl
  | cons q rest ih =>
    obtain ⟨name, data⟩ := q
    have hp0 := hp _ (List.mem_cons_self _ _)
    cases hts : data.timestamp with
    | none =>
      rw [hts] at hp0
      cases hp0
    | some ts =>
      unfold get_train_info
      rw [hts]
      exact ih _ fun q hq => hp q (List.mem_cons_of_mem _ hq)

/-- Witness for C7 (amended): a one-train snapshot with a parseable
timestamp and `track_length = 0` completes normally. -/
theorem c7_witness :
    (⟨0, 5, 10, 10, 0⟩ : Config).track_length = 0 ∧
    (⟨some 60, 100⟩ : RawTrainData).timestamp.isSome = true ∧
    (get_train_info ⟨0, 5, 10, 10, 0⟩ 60 [("A", ⟨some 60, 100⟩)] []).isOk = true :=
  ⟨rfl, rfl,
    c7_zero_track_length_no_error ⟨0, 5, 10, 10, 0⟩ 60 [("A", ⟨some 60, 100⟩)] [] rfl
      (by simp)⟩

/-- Counterexample to C8 as stated: train A's unparseable timestamp
aborts the snapshot, so train B — later in the same snapshot — never gets
a state: the call errors out with the dictionary still empty. -/
theorem c8_counterexample :
    get_train_info ⟨0, 5, 10, 10, 1000⟩ 0 [("A", ⟨none, 0⟩), ("B", ⟨some 0, 5⟩)] []
      = .error ("A", []) ∧
    List.lookup "B" ([] : TrainInfoMap) = none :=
  ⟨rfl, rfl⟩

/-- C8 (amended): an unparseable timestamp anywhere in the snapshot
aborts the whole call: `get_train_info` returns an error instead of
updating the remaining trains. -/
theorem c8_bad_timestamp_aborts (cfg : Config) (u : ℚ)
    (trains : List (String × RawTrainData)) (info : TrainInfoMap)
    (hbad : ∃ p ∈ trains, (p.2).timestamp = none) :
    (get_train_info cfg u trains info).isOk = false := by
  induction trains generalizing info with
  | nil =>
    obtain ⟨p, hp, _⟩ := hbad
    cases hp
  | cons q rest ih =>
    obtain ⟨name, data⟩ := q
    cases hts : data.timestamp with
    | none =>
      unfold get_train_info
      rw [hts]
      rfl
    | some ts =>
      obtain ⟨p, hp, hpn⟩ := hbad
      rcases List.mem_cons.mp hp with rfl | hmem
      · rw [hts] at hpn
        cases hpn
      · unfold get_train_info
        rw [hts]
        exact ih _ ⟨p, hmem, hpn⟩

/-- Witness for C8 (amended): a snapshot whose only train has an
unparseable timestamp makes the call error out. -/
theorem c8_witness :
    (⟨none, 0⟩ : RawTrainData).timestamp = none ∧
    (get_train_info ⟨0, 5, 10, 10, 1000⟩ 0 [("A", ⟨none, 0⟩)] []).isOk = false :=
  ⟨rfl,
    c8_bad_timestamp_aborts ⟨0, 5, 10, 10, 1000⟩ 0 [("A", ⟨none, 0⟩)] []
      ⟨("A", ⟨none, 0⟩), by simp, rfl⟩⟩

/-- Counterexample to C9 as stated: two snapshots whose timestamps arrive
out of order (200 then 150) leave a stored history whose timestamps are
not non-decreasing. -/
theorem c9_counterexample :
    (get_train_info ⟨0, 5, 10, 10, 1000⟩ 200 [("A", ⟨some 200, 100⟩)] []).toOption
      = some [("A", ⟨[⟨200, 100⟩], none, none, none, false⟩)] ∧
    (get_train_info ⟨0, 5, 10, 10, 1000⟩ 200 [("A", ⟨some 150, 300⟩)]
      [("A", ⟨[⟨200, 100⟩], none, none, none, false⟩)]).toOption
      = some [("A", ⟨[⟨200, 100⟩, ⟨150, 300⟩], some (-4), none, none, false⟩)] ∧
    ¬ sortedByTime [⟨200, 100⟩, ⟨150, 300⟩] := by
  refine ⟨by with_unfolding_all decide, by with_unfolding_all decide, ?_⟩
  unfold sortedByTime
  with_unfolding_all decide

/-- C9 (amended): one evaluation preserves timestamp-deduplication of the
stored history unconditionally — needing only that the previous history
was deduplicated, no ordering assumption — and it preserves ascending
timestamp order under the additional proviso that the previous history
was ascending and the newly ingested timestamp is no older than every
stored one (out-of-order feed timestamps break the order — see the
counterexample). -/
theorem c9_history_dedup_sorted (cfg : Config) (u f : ℚ) (st0 : TrainState)
    (data : TrainData)
    (hd : dedupedByTime st0.history) :
    dedupedByTime (stepTrain cfg u f st0 data).history ∧
    (sortedByTime st0.history →
      (∀ s ∈ st0.history, s.timestamp ≤ data.timestamp) →
      sortedByTime (stepTrain cfg u f st0 data).history) := by
  constructor
  · have hingest_d : dedupedByTime (ingest st0.history data) := by
      unfold ingest
      split
      · exact hd
      · next hmem =>
        unfold dedupedByTime
        rw [List.pairwise_append]
        refine ⟨hd, List.pairwise_singleton _ _, ?_⟩
        intro a ha b hb
        simp only [List.mem_singleton] at hb
        subst hb
        intro hcontra
        have hc2 : a.timestamp = data.timestamp := hcontra
        exact hmem (by rw [← hc2]; exact List.mem_map_of_mem _ ha)
    rw [stepTrain_history]
    unfold historyAfter
    cases hc : calc_avg_speed f cfg.eta_lookback cfg.track_length (ingest st0.history data) with
    | none => exact hingest_d
    | some r =>
      have hr := calc_avg_speed_some_history _ _ _ _ _ hc
      show dedupedByTime r.2.2
      rw [hr]
      unfold filterHistory
      exact hingest_d.sublist (List.filter_sublist _)
  · intro hs hmono
    have hingest_s : sortedByTime (ingest st0.history data) := by
      unfold ingest
      split
      · exact hs
      · unfold sortedByTime
        rw [List.pairwise_append]
        refine ⟨hs, List.pairwise_singleton _ _, ?_⟩
        intro a ha b hb
        simp only [List.mem_singleton] at hb
        subst hb
        exact hmono a ha
    rw [stepTrain_history]
    unfold historyAfter
    cases hc : calc_avg_speed f cfg.eta_lookback cfg.track_length (ingest st0.history data) with
    | none => exact hingest_s
    | some r =>
      have hr := calc_avg_speed_some_history _ _ _ _ _ hc
      show sortedByTime r.2.2
      rw [hr]
      unfold filterHistory
      exact hingest_s.sublist (List.filter_sublist _)

/-- Witness for C9 (amended): ingesting a fresh timestamp 200 into the
singleton history at timestamp 0 keeps the history deduplicated, and —
the ordering proviso holding here — sorted. -/
theorem c9_witness :
    dedupedByTime [(⟨0, 100⟩ : Sample)] ∧
    sortedByTime [(⟨0, 100⟩ : Sample)] ∧
    (0 : ℚ) ≤ 200 ∧
    (dedupedByTime (stepTrain ⟨800, 5, 10, 10, 1000⟩ 200 200
        ⟨[⟨0, 100⟩], some 0, none, none, false⟩ ⟨200, 300⟩).history ∧
      sortedByTime (stepTrain ⟨800, 5, 10, 10, 1000⟩ 200 200
        ⟨[⟨0, 100⟩], some 0, none, none, false⟩ ⟨200, 300⟩).history) :=
  ⟨List.pairwise_singleton _ _, List.pairwise_singleton _ _, by norm_num,
    (c9_history_dedup_sorted ⟨800, 5, 10, 10, 1000⟩ 200 200
      ⟨[⟨0, 100⟩], some 0, none, none, false⟩ ⟨200, 300⟩
      (List.pairwise_singleton _ _)).1,
    (c9_history_dedup_sorted ⟨800, 5, 10, 10, 1000⟩ 200 200
      ⟨[⟨0, 100⟩], some 0, none, none, false⟩ ⟨200, 300⟩
      (List.pairwise_singleton _ _)).2 (List.pairwise_singleton _ _)
      (by intro s hs; simp only [List.mem_singleton] at hs; subst hs; norm_num)⟩

/-- Counterexample to C10 as stated: with the duplicate timestamp 200,
the reported position (300 versus 500) still changes the gap and hence
the reported ETA (700 versus 500), so the new position does influence the
ETA. -/
theorem c10_counterexample :
    (200 : ℚ) ∈ ([⟨0, 100⟩, ⟨200, 300⟩] : List Sample).map Sample.timestamp ∧
    (stepTrain ⟨800, 5, 10, 10, 1000⟩ 200 200
      ⟨[⟨0, 100⟩, ⟨200, 300⟩], some 0, none, none, false⟩ ⟨200, 300⟩).eta = some 700 ∧
    (stepTrain ⟨800, 5, 10, 10, 1000⟩ 200 200
      ⟨[⟨0, 100⟩, ⟨200, 300⟩], some 0, none, none, false⟩ ⟨200, 500⟩).eta = some 500 ∧
    (700 : ℚ) ≠ 500 := by
  refine ⟨by with_unfolding_all decide, by with_unfolding_all decide,
    by with_unfolding_all decide, by norm_num⟩

/-- C10 (amended): deduplication is keyed on the timestamp alone, and a
duplicate-timestamp sample leaves the stored history and average speed
unchanged whatever its position; the position still feeds the gap,
arrival test and ETA — see the counterexample. -/
theorem c10_dedup_by_timestamp_only (cfg : Config) (u f : ℚ) (st0 : TrainState)
    (ts p q : ℚ)
    (hmem : ts ∈ st0.history.map Sample.timestamp) :
    (stepTrain cfg u f st0 ⟨ts, p⟩).history = (stepTrain cfg u f st0 ⟨ts, q⟩).history ∧
    (stepTrain cfg u f st0 ⟨ts, p⟩).avg_speed = (stepTrain cfg u f st0 ⟨ts, q⟩).avg_speed := by
  have hi : ∀ x : ℚ, ingest st0.history ⟨ts, x⟩ = st0.history := by
    intro x
    unfold ingest
    rw [if_pos hmem]
  constructor
  · rw [stepTrain_history, stepTrain_history]
    unfold historyAfter
    rw [hi p, hi q]
  · rw [stepTrain_avg_speed, stepTrain_avg_speed]
    unfold avgSpeedAfter
    rw [hi p, hi q]

/-- Witness for C10 (amended): duplicate timestamp 200 with positions
300 and 500 — stored history and average speed agree. -/
theorem c10_witness :
    (200 : ℚ) ∈ ([⟨0, 100⟩, ⟨200, 300⟩] : List Sample).map Sample.timestamp ∧
    ((stepTrain ⟨0, 5, 10, 20, 1000⟩ 200 200
        ⟨[⟨0, 100⟩, ⟨200, 300⟩], some 0, none, none, false⟩ ⟨200, 300⟩).history
      = (stepTrain ⟨0, 5, 10, 20, 1000⟩ 200 200
        ⟨[⟨0, 100⟩, ⟨200, 300⟩], some 0, none, none, false⟩ ⟨200, 500⟩).history ∧
    (stepTrain ⟨0, 5, 10, 20, 1000⟩ 200 200
        ⟨[⟨0, 100⟩, ⟨200, 300⟩], some 0, none, none, false⟩ ⟨200, 300⟩).avg_speed
      = (stepTrain ⟨0, 5, 10, 20, 1000⟩ 200 200
        ⟨[⟨0, 100⟩, ⟨200, 300⟩], some 0, none, none, false⟩ ⟨200, 500⟩).avg_speed) :=
  ⟨by with_unfolding_all decide,
    c10_dedup_by_timestamp_only ⟨0, 5, 10, 20, 1000⟩ 200 200
      ⟨[⟨0, 100⟩, ⟨200, 300⟩], some 0, none, none, false⟩ 200 300 500
      (by with_unfolding_all decide)⟩

/-- Witness for C6, the spec's insufficient-span scenario: positions 500
then 520 sixty seconds apart give the nonzero average speed 1/3, but the
60-second span is under 2 minutes, so both ETAs are `none`. -/
theorem c6_witness :
    (20 : ℚ) ≤ gapTo 0 1000 520 ∧
    calc_avg_speed 60 5 1000 (ingest [⟨0, 500⟩] ⟨60, 520⟩)
      = some (1/3, 60, [⟨0, 500⟩, ⟨60, 520⟩]) ∧
    (60 : ℚ) < 2 * 60 ∧
    (stepTrain ⟨0, 5, 10, 20, 1000⟩ 60 60 ⟨[⟨0, 500⟩], some 0, none, none, false⟩
      ⟨60, 520⟩).raw_eta = none ∧
    (stepTrain ⟨0, 5, 10, 20, 1000⟩ 60 60 ⟨[⟨0, 500⟩], some 0, none, none, false⟩
      ⟨60, 520⟩).eta = none := by
  have h := c6_insufficient_data_no_eta ⟨0, 5, 10, 20, 1000⟩ 60 60
    ⟨[⟨0, 500⟩], some 0, none, none, false⟩ ⟨60, 520⟩ (by with_unfolding_all decide)
    (Or.inr ⟨1/3, 60, [⟨0, 500⟩, ⟨60, 520⟩], by with_unfolding_all decide, Or.inr (by norm_num)⟩)
  exact ⟨by with_unfolding_all decide, by with_unfolding_all decide, by norm_num, h.1, h.2⟩

end C3toc
